import Mathlib

/-!
Shallow embedding of the Chatbot repository (src/main.py backend and
src/app.py client) and verification of its specification claims.
-/

namespace Chatbot

/-! ## Association lists

Python dicts used by the repository (the document store on disk, the
users.json mapping, the chat_sessions mapping) are modelled as ordered
association lists with overwrite-on-assignment semantics. -/

/-- Python dict assignment `m[k] = v`: overwrite in place, append if absent. -/
def assocSet {α : Type} : List (String × α) → String → α → List (String × α)
  | [], k, v => [(k, v)]
  | (k', v') :: rest, k, v =>
      if k' = k then (k, v) :: rest else (k', v') :: assocSet rest k v

/-- Python dict lookup `m.get(k)` / membership test. -/
def assocLookup {α : Type} : List (String × α) → String → Option α
  | [], _ => none
  | (k', v') :: rest, k => if k' = k then some v' else assocLookup rest k

/-- Python `s.endswith(suffix)` on strings. -/
def pyEndsWith (s suf : String) : Bool :=
  List.isSuffixOf suf.data s.data

/-! ## Chunking

Modelled from the spec: the repository delegates text splitting to the
third-party RecursiveCharacterTextSplitter (langchain), which is not under
src/; src/main.py line 113 only fixes its parameters chunk_size=500 and
chunk_overlap=50.  The spec describes the splitter as: fixed maximum chunk
length 500 with fixed overlap 50 between consecutive chunks (so start
offsets advance by stride 450), preserving source order.  The functions
below realise exactly that description, using a fuel argument (the text
length is always enough fuel) to keep them structurally recursive. -/

/-- Modelled from the spec: fuel-indexed worker splitting a text into
chunks of at most 500 characters advancing by stride 450. -/
def splitGo : Nat → List Char → List (List Char)
  | 0, s => [s]
  | fuel + 1, s =>
      if s.length ≤ 500 then [s]
      else s.take 500 :: splitGo fuel (s.drop 450)

/-- Modelled from the spec: split a text into chunks of maximum length 500
with overlap 50 (stride 450), preserving source order. -/
def splitChunks (s : List Char) : List (List Char) :=
  splitGo s.length s

/-- Modelled from the spec: fuel-indexed worker listing chunk start
offsets for a text of length N, starting at a given offset. -/
def startsGo : Nat → Nat → Nat → List Nat
  | 0, start, _ => [start]
  | fuel + 1, start, N =>
      if N ≤ start + 500 then [start]
      else start :: startsGo fuel (start + 450) N

/-- Modelled from the spec: the chunk start offsets for an N-character
text split with max size 500 and overlap 50. -/
def chunkStarts (N : Nat) : List Nat :=
  startsGo N 0 N

/-! ### Chunking lemmas -/

theorem splitGo_length_le (fuel : Nat) :
    ∀ s : List Char, s.length ≤ fuel → ∀ c ∈ splitGo fuel s, c.length ≤ 500 := by
  induction fuel with
  | zero =>
      intro s hs c hc
      simp [splitGo] at hc
      subst hc
      omega
  | succ n ih =>
      intro s hs c hc
      rw [splitGo] at hc
      by_cases h : s.length ≤ 500
      · simp [h] at hc
        subst hc
        exact h
      · simp [h] at hc
        rcases hc with hc | hc
        · subst hc
          simp [List.length_take]
        · exact ih (s.drop 450) (by simp [List.length_drop]; omega) c hc

theorem startsGo_head (fuel start N : Nat) :
    ∃ t, startsGo fuel start N = start :: t := by
  cases fuel with
  | zero => exact ⟨[], rfl⟩
  | succ n =>
      rw [startsGo]
      by_cases h : N ≤ start + 500
      · simp [h]
      · simp [h]

theorem startsGo_chain (fuel : Nat) :
    ∀ start N, List.Chain' (fun a b => b = a + 450) (startsGo fuel start N) := by
  induction fuel with
  | zero => intro start N; simp [startsGo]
  | succ n ih =>
      intro start N
      rw [startsGo]
      by_cases h : N ≤ start + 500
      · simp [h]
      · simp [h]
        obtain ⟨t, ht⟩ := startsGo_head n (start + 450) N
        rw [ht]
        have hch := ih (start + 450) N
        rw [ht] at hch
        exact List.chain'_cons.mpr ⟨rfl, hch⟩

theorem splitGo_map (s : List Char) (fuel : Nat) :
    ∀ k, s.length - k ≤ fuel →
      splitGo fuel (s.drop k) =
        (startsGo fuel k s.length).map (fun st => (s.drop st).take 500) := by
  induction fuel with
  | zero =>
      intro k hk
      have hlen : (s.drop k).length = 0 := by simp [List.length_drop]; omega
      have hnil : s.drop k = [] := List.eq_nil_of_length_eq_zero hlen
      simp [splitGo, startsGo, hnil]
  | succ n ih =>
      intro k hk
      rw [splitGo, startsGo]
      have hdl : (s.drop k).length = s.length - k := by simp [List.length_drop]
      by_cases h : s.length ≤ k + 500
      · have h1 : (s.drop k).length ≤ 500 := by omega
        rw [if_pos h1, if_pos h]
        simp [List.take_of_length_le h1]
      · have h1 : ¬ (s.drop k).length ≤ 500 := by omega
        rw [if_neg h1, if_neg h, List.map_cons]
        have hdd : (s.drop k).drop 450 = s.drop (k + 450) := by
          rw [List.drop_drop]
        rw [hdd]
        exact congrArg _ (ih (k + 450) (by omega))

/-! ## Backend (src/main.py)

The FastAPI handlers are embedded as pure functions.  Every call into a
third-party library (file write, document loading, vector-index insertion
and persistence, retriever and language-model calls) is a failure
boundary: its outcome is an `Except String` value carried in an
environment record, `Except.error e` standing for a raised exception with
message `str(e)`. -/

/-- A JSON value as the handlers produce them: a string or a string list. -/
inductive JVal : Type
  | s : String → JVal
  | arr : List String → JVal
deriving Repr, DecidableEq

/-- An HTTP response: a status code and a JSON-object body given as
key-value pairs (a plain dict return in FastAPI carries status 200). -/
structure Response : Type where
  status : Nat
  body : List (String × JVal)
deriving Repr, DecidableEq

/-- Backend persistent state: the document store directory
(filename to raw bytes) and the vector index (chunk texts). -/
structure BackendState : Type where
  store : List (String × List Nat)
  index : List (List Char)
deriving Repr, DecidableEq

/-- Outcomes of the fallible external steps of `upload_file`
(src/main.py lines 96-118): writing the bytes, `loader.load()` (the
extracted text), `vector_db.add_documents`, and the persistence call. -/
structure UploadEnv : Type where
  saveResult : Except String Unit
  loadResult : Except String String
  addResult : Except String Unit
  persistResult : Except String Unit

/-- Whether an external step succeeded. -/
def stepOk {α : Type} : Except String α → Bool
  | .ok _ => true
  | .error _ => false

/-- src/main.py lines 92-125, `upload_file`: save the raw bytes under the
original filename, then check the extension (unsupported gives 400),
then load, split, add to the index and persist; any raised exception is
caught and returned as 500 with the exception text. -/
def upload_file (st : BackendState) (env : UploadEnv)
    (filename : String) (content : List Nat) : BackendState × Response :=
  match env.saveResult with
  | .error e => (st, ⟨500, [("error", .s ("File upload failed: " ++ e))]⟩)
  | .ok _ =>
    let st1 : BackendState := { st with store := assocSet st.store filename content }
    if pyEndsWith filename ".pdf" || pyEndsWith filename ".txt" then
      match env.loadResult with
      | .error e => (st1, ⟨500, [("error", .s ("File upload failed: " ++ e))]⟩)
      | .ok text =>
        let chunks := splitChunks text.data
        match env.addResult with
        | .error e => (st1, ⟨500, [("error", .s ("File upload failed: " ++ e))]⟩)
        | .ok _ =>
          let st2 : BackendState := { st1 with index := st1.index ++ chunks }
          match env.persistResult with
          | .error e => (st2, ⟨500, [("error", .s ("File upload failed: " ++ e))]⟩)
          | .ok _ =>
            (st2, ⟨200, [("message", .s "File uploaded and indexed successfully!"),
                         ("filename", .s filename)]⟩)
    else
      (st1, ⟨400, [("error", .s "Unsupported file format. Upload a .pdf or .txt file.")]⟩)

/-- Whether the upload handler reaches its except branch: the save raises,
or the extension is supported and a later step raises. -/
def uploadRaises (env : UploadEnv) (filename : String) : Bool :=
  !stepOk env.saveResult ||
    ((pyEndsWith filename ".pdf" || pyEndsWith filename ".txt") &&
      (!stepOk env.loadResult || !stepOk env.addResult || !stepOk env.persistResult))

/-- Outcomes of the external steps of the first `search_query` definition
(src/main.py lines 62-80): `qa_chain.invoke` (the answer text) and
`vector_db.similarity_search` (the retrieved chunk texts). -/
structure SearchEnv1 : Type where
  invokeResult : Except String String
  similarityResult : Except String (List String)

/-- src/main.py lines 62-80, first definition of `search_query`. -/
def search_query_v1 (env : SearchEnv1) (query : String) : Response :=
  match env.invokeResult with
  | .error e => ⟨500, [("error", .s ("Error processing your request: " ++ e))]⟩
  | .ok answer =>
    match env.similarityResult with
    | .error e => ⟨500, [("error", .s ("Error processing your request: " ++ e))]⟩
    | .ok docs => ⟨200, [("retrieved_chunks", .arr docs), ("answer", .s answer)]⟩

/-- Outcomes of the external steps of the second `search_query` definition
(src/main.py lines 129-144): `qa_chain.retriever.get_relevant_documents`
and `qa_chain.run`. -/
structure SearchEnv2 : Type where
  retrieveResult : Except String (List String)
  runResult : Except String String

/-- src/main.py lines 129-144, second definition of `search_query`. -/
def search_query_v2 (env : SearchEnv2) (query : String) : Response :=
  match env.retrieveResult with
  | .error e => ⟨500, [("error", .s ("Error processing your request: " ++ e))]⟩
  | .ok docs =>
    match env.runResult with
    | .error e => ⟨500, [("error", .s ("Error processing your request: " ++ e))]⟩
    | .ok answer => ⟨200, [("retrieved_chunks", .arr docs), ("answer", .s answer)]⟩

/-! ## Client (src/app.py)

The Streamlit session state and users.json file are one record; the
password hash (sha256 hexdigest) is an abstract function parameter. -/

/-- Client-side state: the Streamlit session fields (lines 27-36 of
src/app.py) plus `users_file`, the contents of the persisted users.json. -/
structure AppState : Type where
  logged_in : Bool
  username : String
  messages : List (String × String)
  chat_sessions : List (String × List (String × String))
  user_store : List (String × String)
  users_file : List (String × String)
deriving Repr, DecidableEq

/-- src/app.py line 81: the upload/search UI is rendered exactly when
`logged_in` is set. -/
def uiAccessible (st : AppState) : Bool :=
  st.logged_in

/-- src/app.py lines 50-62, the Sign Up branch: with nonempty username and
password, an existing username is an error; otherwise the store gains the
hashed password, is saved to users.json, and the user is logged in.
Returns the new state and whether an error was shown. -/
def signUp (hash_password : String → String) (st : AppState)
    (username password : String) : AppState × Bool :=
  if username ≠ "" ∧ password ≠ "" then
    if (assocLookup st.user_store username).isSome then
      (st, true)
    else
      let store' := assocSet st.user_store username (hash_password password)
      ({ st with user_store := store', users_file := store',
                 logged_in := true, username := username }, false)
  else
    (st, true)

/-- src/app.py lines 63-70, the Login branch: succeeds exactly when the
username is stored with the hash of the given password.  Returns the new
state and whether an error was shown. -/
def login (hash_password : String → String) (st : AppState)
    (username password : String) : AppState × Bool :=
  if assocLookup st.user_store username = some (hash_password password) then
    ({ st with logged_in := true, username := username }, false)
  else
    (st, true)

/-- src/app.py lines 73-78, the Logout handler: clear the login flag, the
username and the message list. -/
def logout (st : AppState) : AppState :=
  { st with logged_in := false, username := "", messages := [] }

/-- src/app.py lines 125-128, the Save Chat handler: store a copy of the
current messages under the name "Session {count+1}".  Returns the new
state and the session name used. -/
def saveChat (st : AppState) : AppState × String :=
  let name := "Session " ++ toString (st.chat_sessions.length + 1)
  ({ st with chat_sessions := assocSet st.chat_sessions name st.messages }, name)

/-- src/app.py lines 130-134, the Load Previous Chat handler: for a
nonempty selected name present in the sessions mapping, replace the
current messages by a copy of the saved ones. -/
def loadChat (st : AppState) (name : String) : AppState :=
  if name ≠ "" then
    match assocLookup st.chat_sessions name with
    | some msgs => { st with messages := msgs }
    | none => st
  else
    st

/-! ## Shared concrete fixtures and helper lemmas -/

/-- An upload environment in which every external step succeeds. -/
def envAllOk : UploadEnv :=
  ⟨Except.ok (), Except.ok "hello", Except.ok (), Except.ok ()⟩

/-- An upload environment in which the file write raises. -/
def envSaveFail : UploadEnv :=
  ⟨Except.error "disk full", Except.ok "hello", Except.ok (), Except.ok ()⟩

/-- A client state with one registered user alice (password hash "pw#")
and nobody logged in. -/
def stW : AppState :=
  ⟨false, "", [], [], [("alice", "pw#")], [("alice", "pw#")]⟩

/-- A logged-in client state with one chat message and no saved session. -/
def stC : AppState :=
  ⟨true, "alice", [("You", "hi")], [], [("alice", "pw#")], [("alice", "pw#")]⟩

theorem assocLookup_set {α : Type} (m : List (String × α)) (k : String) (v : α) :
    assocLookup (assocSet m k v) k = some v := by
  induction m with
  | nil => simp [assocSet, assocLookup]
  | cons hd tl ih =>
      obtain ⟨k', v'⟩ := hd
      by_cases h : k' = k
      · simp [assocSet, assocLookup, h]
      · simp [assocSet, assocLookup, h, ih]

theorem upload_file_store (st : BackendState) (env : UploadEnv)
    (f : String) (b : List Nat) (h : env.saveResult = Except.ok ()) :
    (upload_file st env f b).1.store = assocSet st.store f b := by
  unfold upload_file
  rw [h]
  dsimp only
  split
  · cases hl : env.loadResult with
    | error e => rfl
    | ok text =>
        cases ha : env.addResult with
        | error e => rfl
        | ok u =>
            cases hp : env.persistResult with
            | error e => rfl
            | ok u => rfl
  · rfl

/-! ## Claims -/

/-- C2: for every text, with max chunk size 500 and overlap 50, the chunk
start offsets advance by exactly 450 between consecutive chunks, every
chunk has length at most 500, and the chunks are exactly the text's
segments at those offsets in source order. -/
theorem c2_chunk_offsets_lengths_order (s : List Char) :
    List.Chain' (fun a b => b = a + 450) (chunkStarts s.length) ∧
    (∀ c ∈ splitChunks s, c.length ≤ 500) ∧
    splitChunks s = (chunkStarts s.length).map (fun st => (s.drop st).take 500) := by
  refine ⟨startsGo_chain s.length 0 s.length,
          splitGo_length_le s.length s le_rfl, ?_⟩
  have h := splitGo_map s s.length 0 (by omega)
  simpa [splitChunks, chunkStarts] using h

/-- C2 witness: the binders of the length clause discharged on the single
chunk of a concrete two-character text. -/
theorem c2_witness : (['h', 'i'] : List Char).length ≤ 500 :=
  (c2_chunk_offsets_lengths_order ['h', 'i']).2.1 ['h', 'i'] (by decide)

/-- C6: a text shorter than the chunk size 500 is split into exactly one
chunk, equal to the input text. -/
theorem c6_short_text_single_chunk (text : String) (h : text.data.length < 500) :
    splitChunks text.data = [text.data] := by
  unfold splitChunks
  rcases hn : text.data.length with _ | n
  · rfl
  · rw [splitGo, if_pos (by omega : text.data.length ≤ 500)]

/-- C6 witness: a concrete two-character text yields a single chunk. -/
theorem c6_witness : splitChunks "hi".data = ["hi".data] :=
  c6_short_text_single_chunk "hi" (by decide)

/-- C1 counterexample: a concrete upload of "a.csv" (unsupported
extension) returns status 400 yet the document store has been written,
refuting the claim that no filesystem write is performed. -/
theorem c1_counterexample :
    (upload_file ⟨[], []⟩ envAllOk "a.csv" [1]).2.status = 400 ∧
    ¬ (upload_file ⟨[], []⟩ envAllOk "a.csv" [1]).1.store = ([] : List (String × List Nat)) := by
  decide

/-- C1 (amended): an upload whose filename ends with neither ".pdf" nor
".txt", and whose byte write succeeds, returns status 400 and mutates no
vector index, but the raw bytes have already been written to the document
store under the original filename. -/
theorem c1_upload_unsupported_after_save (st : BackendState) (env : UploadEnv)
    (f : String) (b : List Nat) (hs : env.saveResult = Except.ok ())
    (hp : pyEndsWith f ".pdf" = false) (ht : pyEndsWith f ".txt" = false) :
    (upload_file st env f b).2.status = 400 ∧
    (upload_file st env f b).1.index = st.index ∧
    (upload_file st env f b).1.store = assocSet st.store f b := by
  unfold upload_file
  rw [hs]
  dsimp only
  rw [hp, ht]
  simp

/-- C1 witness: the amended claim evaluated at a concrete "a.csv" upload. -/
theorem c1_witness :
    (upload_file ⟨[], []⟩ envAllOk "a.csv" [1]).2.status = 400 ∧
    (upload_file ⟨[], []⟩ envAllOk "a.csv" [1]).1.index = ([] : List (List Char)) ∧
    (upload_file ⟨[], []⟩ envAllOk "a.csv" [1]).1.store = assocSet [] "a.csv" [1] :=
  c1_upload_unsupported_after_save ⟨[], []⟩ envAllOk "a.csv" [1] rfl (by decide) (by decide)

/-- C3: a POST /upload/ request returns 200 with message and filename keys
when every step succeeds on a supported extension, 400 when the save
succeeds and the extension is unsupported, and 500 with an error value
carrying the exception text when any step raises. -/
theorem c3_upload_status_contract (st : BackendState) (env : UploadEnv)
    (f : String) (b : List Nat) :
    ((pyEndsWith f ".pdf" || pyEndsWith f ".txt") = true →
      env.saveResult = Except.ok () → (∃ t, env.loadResult = Except.ok t) →
      env.addResult = Except.ok () → env.persistResult = Except.ok () →
      (upload_file st env f b).2.status = 200 ∧
      assocLookup (upload_file st env f b).2.body "message" =
        some (JVal.s "File uploaded and indexed successfully!") ∧
      assocLookup (upload_file st env f b).2.body "filename" = some (JVal.s f)) ∧
    (env.saveResult = Except.ok () →
      (pyEndsWith f ".pdf" || pyEndsWith f ".txt") = false →
      (upload_file st env f b).2.status = 400) ∧
    (uploadRaises env f = true →
      ∃ e, (upload_file st env f b).2.status = 500 ∧
        (upload_file st env f b).2.body =
          [("error", JVal.s ("File upload failed: " ++ e))]) := by
  refine ⟨?_, ?_, ?_⟩
  · rintro hext hs ⟨t, hl⟩ ha hp
    unfold upload_file
    rw [hs]
    dsimp only
    rw [hext]
    simp only [if_true]
    rw [hl]
    dsimp only
    rw [ha]
    dsimp only
    rw [hp]
    dsimp only
    refine ⟨rfl, ?_, ?_⟩ <;> simp [assocLookup]
  · intro hs hext
    unfold upload_file
    rw [hs]
    dsimp only
    rw [hext]
    simp
  · intro hr
    unfold uploadRaises at hr
    unfold upload_file
    cases hsv : env.saveResult with
    | error e => exact ⟨e, rfl, rfl⟩
    | ok u =>
        rw [hsv] at hr
        simp [stepOk] at hr
        obtain ⟨hext, hfail⟩ := hr
        have hext' : (pyEndsWith f ".pdf" || pyEndsWith f ".txt") = true := by
          rcases hext with h | h <;> simp [h]
        dsimp only
        rw [if_pos hext']
        cases hl : env.loadResult with
        | error e => exact ⟨e, rfl, rfl⟩
        | ok t =>
            rw [hl] at hfail
            cases ha : env.addResult with
            | error e => exact ⟨e, rfl, rfl⟩
            | ok v =>
                rw [ha] at hfail
                cases hp : env.persistResult with
                | error e => exact ⟨e, rfl, rfl⟩
                | ok w =>
                    rw [hp] at hfail
                    simp [stepOk] at hfail

/-- C3 witness: the contract evaluated on a concrete successful upload, a
concrete unsupported-extension upload, and a concrete failing upload. -/
theorem c3_witness :
    (upload_file ⟨[], []⟩ envAllOk "a.txt" [1]).2.status = 200 ∧
    (upload_file ⟨[], []⟩ envAllOk "a.csv" [1]).2.status = 400 ∧
    (∃ e, (upload_file ⟨[], []⟩ envSaveFail "a.txt" [1]).2.status = 500 ∧
      (upload_file ⟨[], []⟩ envSaveFail "a.txt" [1]).2.body =
        [("error", JVal.s ("File upload failed: " ++ e))]) :=
  ⟨((c3_upload_status_contract ⟨[], []⟩ envAllOk "a.txt" [1]).1
      (by decide) rfl ⟨"hello", rfl⟩ rfl rfl).1,
   (c3_upload_status_contract ⟨[], []⟩ envAllOk "a.csv" [1]).2.1 rfl (by decide),
   (c3_upload_status_contract ⟨[], []⟩ envSaveFail "a.txt" [1]).2.2 (by decide)⟩

/-- C7: two uploads under the same original filename leave the later
upload's bytes in the document store (last write wins). -/
theorem c7_upload_last_write_wins (st : BackendState) (env1 env2 : UploadEnv)
    (f : String) (b1 b2 : List Nat)
    (h1 : env1.saveResult = Except.ok ()) (h2 : env2.saveResult = Except.ok ()) :
    assocLookup (upload_file (upload_file st env1 f b1).1 env2 f b2).1.store f =
      some b2 := by
  rw [upload_file_store _ _ _ _ h2]
  exact assocLookup_set _ f b2

/-- C7 witness: two concrete uploads of "a.txt"; the stored bytes are
those of the second upload. -/
theorem c7_witness :
    assocLookup
      (upload_file (upload_file ⟨[], []⟩ envAllOk "a.txt" [1, 2]).1
        envAllOk "a.txt" [3]).1.store "a.txt" = some [3] :=
  c7_upload_last_write_wins ⟨[], []⟩ envAllOk envAllOk "a.txt" [1, 2] [3] rfl rfl

/-- C4: signing up with an existing username is rejected and leaves the
store unchanged; logging in with a password whose hash differs from the
stored one is rejected; logging in with the matching hash succeeds and
makes the upload/search UI accessible. -/
theorem c4_auth_correctness (hash_password : String → String) :
    (∀ (st : AppState) (u p : String),
        (assocLookup st.user_store u).isSome = true →
        signUp hash_password st u p = (st, true)) ∧
    (∀ (st : AppState) (u p h' : String),
        assocLookup st.user_store u = some h' → h' ≠ hash_password p →
        login hash_password st u p = (st, true)) ∧
    (∀ (st : AppState) (u p : String),
        assocLookup st.user_store u = some (hash_password p) →
        (login hash_password st u p).1.logged_in = true ∧
        uiAccessible (login hash_password st u p).1 = true ∧
        (login hash_password st u p).2 = false) := by
  refine ⟨?_, ?_, ?_⟩
  · intro st u p h
    unfold signUp
    by_cases hc : u ≠ "" ∧ p ≠ ""
    · rw [if_pos hc, h]
      simp
    · rw [if_neg hc]
  · intro st u p h' hl hne
    unfold login
    rw [if_neg]
    rw [hl]
    simp [hne]
  · intro st u p hl
    unfold login uiAccessible
    rw [if_pos hl]
    exact ⟨rfl, rfl, rfl⟩

/-- C4 witness: the three clauses evaluated on a concrete store holding
alice with hash "pw#", under the hash function appending "#". -/
theorem c4_witness :
    signUp (fun s => s ++ "#") stW "alice" "x" = (stW, true) ∧
    login (fun s => s ++ "#") stW "alice" "wrong" = (stW, true) ∧
    (login (fun s => s ++ "#") stW "alice" "pw").1.logged_in = true :=
  ⟨(c4_auth_correctness (fun s => s ++ "#")).1 stW "alice" "x" (by decide),
   (c4_auth_correctness (fun s => s ++ "#")).2.1 stW "alice" "wrong" "pw#" rfl (by decide),
   ((c4_auth_correctness (fun s => s ++ "#")).2.2 stW "alice" "pw" rfl).1⟩

/-- C5: both definitions of the search endpoint return 200 with the
retrieved_chunks list and the answer text on success, and 500 with an
error value carrying the exception text on any failure. -/
theorem c5_search_contract :
    (∀ (env : SearchEnv1) (q a : String) (docs : List String),
        env.invokeResult = Except.ok a → env.similarityResult = Except.ok docs →
        search_query_v1 env q =
          ⟨200, [("retrieved_chunks", JVal.arr docs), ("answer", JVal.s a)]⟩) ∧
    (∀ (env : SearchEnv1) (q : String),
        (!stepOk env.invokeResult || !stepOk env.similarityResult) = true →
        ∃ e, search_query_v1 env q =
          ⟨500, [("error", JVal.s ("Error processing your request: " ++ e))]⟩) ∧
    (∀ (env : SearchEnv2) (q a : String) (docs : List String),
        env.retrieveResult = Except.ok docs → env.runResult = Except.ok a →
        search_query_v2 env q =
          ⟨200, [("retrieved_chunks", JVal.arr docs), ("answer", JVal.s a)]⟩) ∧
    (∀ (env : SearchEnv2) (q : String),
        (!stepOk env.retrieveResult || !stepOk env.runResult) = true →
        ∃ e, search_query_v2 env q =
          ⟨500, [("error", JVal.s ("Error processing your request: " ++ e))]⟩) := by
  refine ⟨?_, ?_, ?_, ?_⟩
  · intro env q a docs hi hs
    unfold search_query_v1
    rw [hi]
    dsimp only
    rw [hs]
  · intro env q h
    unfold search_query_v1
    cases hi : env.invokeResult with
    | error e => exact ⟨e, rfl⟩
    | ok a =>
        dsimp only
        cases hs : env.similarityResult with
        | error e => exact ⟨e, rfl⟩
        | ok docs =>
            rw [hi, hs] at h
            simp [stepOk] at h
  · intro env q a docs hr hrun
    unfold search_query_v2
    rw [hr]
    dsimp only
    rw [hrun]
  · intro env q h
    unfold search_query_v2
    cases hr : env.retrieveResult with
    | error e => exact ⟨e, rfl⟩
    | ok docs =>
        dsimp only
        cases hrun : env.runResult with
        | error e => exact ⟨e, rfl⟩
        | ok a =>
            rw [hr, hrun] at h
            simp [stepOk] at h

/-- C5 witness: both endpoint definitions evaluated on a concrete
successful environment and a concrete failing one. -/
theorem c5_witness :
    search_query_v1 ⟨Except.ok "ans", Except.ok ["c1"]⟩ "q" =
      ⟨200, [("retrieved_chunks", JVal.arr ["c1"]), ("answer", JVal.s "ans")]⟩ ∧
    (∃ e, search_query_v1 ⟨Except.error "boom", Except.ok ["c1"]⟩ "q" =
      ⟨500, [("error", JVal.s ("Error processing your request: " ++ e))]⟩) ∧
    search_query_v2 ⟨Except.ok ["c2"], Except.ok "ans2"⟩ "q" =
      ⟨200, [("retrieved_chunks", JVal.arr ["c2"]), ("answer", JVal.s "ans2")]⟩ ∧
    (∃ e, search_query_v2 ⟨Except.ok ["c2"], Except.error "bang"⟩ "q" =
      ⟨500, [("error", JVal.s ("Error processing your request: " ++ e))]⟩) :=
  ⟨c5_search_contract.1 ⟨Except.ok "ans", Except.ok ["c1"]⟩ "q" "ans" ["c1"] rfl rfl,
   c5_search_contract.2.1 ⟨Except.error "boom", Except.ok ["c1"]⟩ "q" (by decide),
   c5_search_contract.2.2.1 ⟨Except.ok ["c2"], Except.ok "ans2"⟩ "q" "ans2" ["c2"] rfl rfl,
   c5_search_contract.2.2.2 ⟨Except.ok ["c2"], Except.error "bang"⟩ "q" (by decide)⟩

/-- C8: with no session saved yet, saving the chat uses the name
"Session 1", and loading that session after further messages were
appended restores exactly the message sequence current at save time. -/
theorem c8_save_then_load_snapshot (st : AppState) (extra : List (String × String))
    (h : st.chat_sessions = []) :
    (saveChat st).2 = "Session 1" ∧
    (loadChat { (saveChat st).1 with messages := (saveChat st).1.messages ++ extra }
        "Session 1").messages = st.messages := by
  unfold saveChat loadChat
  rw [h]
  exact ⟨rfl, rfl⟩

/-- C8 witness: a concrete one-message chat saved, extended with a later
message, and restored by loading "Session 1". -/
theorem c8_witness :
    (loadChat { (saveChat stC).1 with
        messages := (saveChat stC).1.messages ++ [("Bot", "yo")] }
      "Session 1").messages = [("You", "hi")] :=
  (c8_save_then_load_snapshot stC [("Bot", "yo")] rfl).2

/-- C9: a sign-up attempt with an empty username or an empty password
creates no account: the state (user store and persisted file included) is
unchanged, an error is shown, and the user stays logged out. -/
theorem c9_empty_credentials_signup (hash_password : String → String)
    (st : AppState) (u p : String) (h : u = "" ∨ p = "")
    (h0 : st.logged_in = false) :
    signUp hash_password st u p = (st, true) ∧
    (signUp hash_password st u p).1.user_store = st.user_store ∧
    (signUp hash_password st u p).1.users_file = st.users_file ∧
    (signUp hash_password st u p).1.logged_in = false := by
  have hc : ¬ (u ≠ "" ∧ p ≠ "") := by tauto
  unfold signUp
  rw [if_neg hc]
  exact ⟨rfl, rfl, rfl, h0⟩

/-- C9 witness: a concrete sign-up with an empty username is rejected
without touching the state. -/
theorem c9_witness : signUp (fun s => s ++ "#") stW "" "pw" = (stW, true) :=
  (c9_empty_credentials_signup (fun s => s ++ "#") stW "" "pw" (Or.inl rfl) rfl).1

/-- C10: logging out clears the login flag, the username and the message
list, and leaves the chat sessions, the in-memory user store and the
persisted users file unchanged. -/
theorem c10_logout_frame (st : AppState) :
    (logout st).logged_in = false ∧
    (logout st).username = "" ∧
    (logout st).messages = [] ∧
    (logout st).chat_sessions = st.chat_sessions ∧
    (logout st).user_store = st.user_store ∧
    (logout st).users_file = st.users_file :=
  ⟨rfl, rfl, rfl, rfl, rfl, rfl⟩

end Chatbot
